import Mathlib

/-!
# libmc `include/Common.h`: a shallow embedding

The header defines the configuration constants, the `MIN`/`MAX` helpers,
the logging and assertion helpers built on `snprintf` and the plog sink,
and the enumeration `parser_state_t` with its test `IS_END_STATE`.

Conventions of the embedding:

* preprocessor switches (`NDEBUG`) become `Bool` parameters, and
  `MC_LOG_LEVEL` becomes a `Nat` parameter whose default is
  `MC_LOG_LEVEL_INFO`;
* C `char` arrays are `List Char`; `snprintf` is modelled on its successful
  path (it stores the expansion cut to the buffer and returns its length);
* statements with side effects return an `Exec`: the observable effects in
  program order and whether the process was terminated.
-/

namespace Libmc

/-! ## Configuration constants (Common.h lines 15-18, 47, 63) -/

def MC_DEFAULT_PORT : Nat := 11211
def MC_DEFAULT_POLL_TIMEOUT : Nat := 300
def MC_DEFAULT_CONNECT_TIMEOUT : Nat := 10
def MC_DEFAULT_RETRY_TIMEOUT : Nat := 5

def MIN_DATABLOCK_CAPACITY : Int := 8192
def MAX_LOG_LENGTH : Nat := 300

/-- Milliseconds in the given number of seconds (unit conversion used to
compare the timeouts, which the header states in different units). -/
def secondsToMs (s : Nat) : Nat := 1000 * s

/-! ## `MIN` / `MAX` (Common.h lines 48-49) -/

/-- `#define MIN(A, B) (((A) > (B)) ? (B) : (A))` -/
def MIN (A B : Int) : Int := if A > B then B else A

/-- `#define MAX(A, B) (((A) < (B)) ? (B) : (A))` -/
def MAX (A B : Int) : Int := if A < B then B else A

/-! ## `parser_state_t` (Common.h lines 123-152) -/

/-- The enumeration `douban::mc::parser_state_t`, enumerators in source order. -/
inductive parser_state_t where
  | FSM_START
  | FSM_END
  | FSM_ERROR
  | FSM_GET_START
  | FSM_GET_KEY
  | FSM_GET_FLAGS
  | FSM_GET_BYTES
  | FSM_GET_CAS
  | FSM_GET_VALUE_REMAINING
  | FSM_VER_START
  | FSM_STAT_START
  | FSM_INCR_DECR_START
  | FSM_INCR_DECR_REMAINING
  deriving DecidableEq, Repr, Fintype

open parser_state_t

/-- Numeric value of an enumerator: no enumerator has an initialiser, so the
first is 0 and each next one is the previous plus one. -/
def parser_state_t.toNat : parser_state_t → Nat
  | FSM_START => 0
  | FSM_END => 1
  | FSM_ERROR => 2
  | FSM_GET_START => 3
  | FSM_GET_KEY => 4
  | FSM_GET_FLAGS => 5
  | FSM_GET_BYTES => 6
  | FSM_GET_CAS => 7
  | FSM_GET_VALUE_REMAINING => 8
  | FSM_VER_START => 9
  | FSM_STAT_START => 10
  | FSM_INCR_DECR_START => 11
  | FSM_INCR_DECR_REMAINING => 12

/-- `#define IS_END_STATE(st) ((st) == FSM_END or (st) == FSM_ERROR)`;
the comparison is on the enumerators' numeric values. -/
def IS_END_STATE (st : parser_state_t) : Bool :=
  st.toNat == FSM_END.toNat || st.toNat == FSM_ERROR.toNat

/-- The parser states as the specification lists them (spec section 3,
"ParserState"), in the specification's order. -/
inductive SpecParserState where
  | Start
  | End
  | Error
  | GetStart
  | GetKey
  | GetFlags
  | GetBytes
  | GetCas
  | GetValueRemaining
  | VersionStart
  | StatStart
  | IncrDecrStart
  | IncrDecrRemaining
  deriving DecidableEq, Repr, Fintype

/-- Correspondence from the source enumerators to the specification's states. -/
def toSpecState : parser_state_t → SpecParserState
  | FSM_START => .Start
  | FSM_END => .End
  | FSM_ERROR => .Error
  | FSM_GET_START => .GetStart
  | FSM_GET_KEY => .GetKey
  | FSM_GET_FLAGS => .GetFlags
  | FSM_GET_BYTES => .GetBytes
  | FSM_GET_CAS => .GetCas
  | FSM_GET_VALUE_REMAINING => .GetValueRemaining
  | FSM_VER_START => .VersionStart
  | FSM_STAT_START => .StatStart
  | FSM_INCR_DECR_START => .IncrDecrStart
  | FSM_INCR_DECR_REMAINING => .IncrDecrRemaining

/-- Correspondence from the specification's states back to the enumerators. -/
def ofSpecState : SpecParserState → parser_state_t
  | .Start => FSM_START
  | .End => FSM_END
  | .Error => FSM_ERROR
  | .GetStart => FSM_GET_START
  | .GetKey => FSM_GET_KEY
  | .GetFlags => FSM_GET_FLAGS
  | .GetBytes => FSM_GET_BYTES
  | .GetCas => FSM_GET_CAS
  | .GetValueRemaining => FSM_GET_VALUE_REMAINING
  | .VersionStart => FSM_VER_START
  | .StatStart => FSM_STAT_START
  | .IncrDecrStart => FSM_INCR_DECR_START
  | .IncrDecrRemaining => FSM_INCR_DECR_REMAINING

/-! ## Effects of the logging and assertion helpers -/

/-- The plog severities the header passes to `LOG`. -/
inductive Severity where
  | fatal
  | error
  | warning
  | info
  | debug
  deriving DecidableEq, Repr

/-- Observable effects: a record handed to the plog sink (`LOG(LEVEL) << buf`,
`text` being the characters `buf` holds before the NUL that `snprintf` wrote),
a call of `printBacktrace()`, and `abort()`. -/
inductive Effect where
  | LOG (level : Severity) (text : List Char)
  | printBacktrace
  | abort
  deriving DecidableEq, Repr

/-- Result of executing a statement: its effects in program order and whether
the process was terminated (nothing after a terminating statement runs). -/
structure Exec where
  effects : List Effect
  terminated : Bool
  deriving DecidableEq, Repr

/-- The empty statement, also `__VOID_CAST(0)`. -/
def Exec.skip : Exec := ⟨[], false⟩

/-- Sequential composition `a; b`. -/
def Exec.andThen (a b : Exec) : Exec :=
  if a.terminated then a else ⟨a.effects ++ b.effects, b.terminated⟩

/-- Whether a statement handed at least one record to the sink. -/
def Exec.emits (e : Exec) : Bool :=
  e.effects.any fun eff =>
    match eff with
    | Effect.LOG _ _ => true
    | _ => false

/-- The texts handed to the sink, in order. -/
def Exec.logged (e : Exec) : List (List Char) :=
  e.effects.filterMap fun eff =>
    match eff with
    | Effect.LOG _ text => some text
    | _ => none

/-- The characters of a buffer read as a C string, the way the stream operator
of the sink reads `buf`: up to the first NUL. -/
def cstr (buf : List Char) : List Char :=
  buf.takeWhile fun c => c != Char.ofNat 0

/-- The call `snprintf(buf, size, ...)` whose format expands to `expansion`:
the characters stored in `buf` before the terminating NUL, and the return
value, the length of the whole expansion. -/
def snprintf (size : Nat) (expansion : List Char) : List Char × Int :=
  (expansion.take (size - 1), (expansion.length : Int))

/-- The body of `_mc_log(LEVEL, FORMAT, ...)`; `FORMAT` is the expansion of the
format with its arguments, to which the helper appends a newline. -/
def _mc_log (LEVEL : Severity) (FORMAT : List Char) : Exec :=
  let r := snprintf MAX_LOG_LENGTH (FORMAT ++ ['\n'])
  if r.2 > 0 then ⟨[Effect.LOG LEVEL r.1], false⟩ else Exec.skip

/-- The body of `_mc_log_if(LEVEL, COND, FORMAT, ...)`. -/
def _mc_log_if (LEVEL : Severity) (COND : Bool) (FORMAT : List Char) : Exec :=
  if COND then _mc_log LEVEL FORMAT else Exec.skip

/-- `#define _mc_clean_errno() (errno == 0 ? "None" : strerror(errno))`;
`strerror` belongs to the C library and is a parameter. -/
def _mc_clean_errno (errno : Int) (strerror : Int → List Char) : List Char :=
  if errno == 0 then "None".toList else strerror errno

def MC_LOG_LEVEL_ERROR : Nat := 2
def MC_LOG_LEVEL_WARNING : Nat := 3
def MC_LOG_LEVEL_INFO : Nat := 4
def MC_LOG_LEVEL_DEBUG : Nat := 5

/-- `#define MC_LOG_LEVEL MC_LOG_LEVEL_INFO`, the level the header configures. -/
def MC_LOG_LEVEL : Nat := MC_LOG_LEVEL_INFO

/-- The expansion of the format `"[E: %s] " M` with first argument `e`. -/
def errnoFormat (e M : List Char) : List Char :=
  "[E: ".toList ++ e ++ "] ".toList ++ M

/-- The two definitions of `log_debug_if`: `__VOID_CAST(0)` under `NDEBUG`. -/
def log_debug_if (NDEBUG : Bool) (COND : Bool) (errno : Int) (strerror : Int → List Char)
    (M : List Char) : Exec :=
  if NDEBUG then Exec.skip
  else _mc_log_if Severity.debug COND (errnoFormat (_mc_clean_errno errno strerror) M)

/-- The two definitions of `log_debug`; `level` is the value of `MC_LOG_LEVEL`. -/
def log_debug (NDEBUG : Bool) (level : Nat) (errno : Int) (strerror : Int → List Char)
    (M : List Char) : Exec :=
  if NDEBUG then Exec.skip
  else log_debug_if NDEBUG (decide (level ≥ MC_LOG_LEVEL_DEBUG)) errno strerror M

def log_info_if (COND : Bool) (M : List Char) : Exec :=
  _mc_log_if Severity.info COND M

def log_info (level : Nat) (M : List Char) : Exec :=
  log_info_if (decide (level ≥ MC_LOG_LEVEL_INFO)) M

def log_warn_if (COND : Bool) (errno : Int) (strerror : Int → List Char) (M : List Char) : Exec :=
  _mc_log_if Severity.warning COND (errnoFormat (_mc_clean_errno errno strerror) M)

def log_warn (level : Nat) (errno : Int) (strerror : Int → List Char) (M : List Char) : Exec :=
  log_warn_if (decide (level ≥ MC_LOG_LEVEL_WARNING)) errno strerror M

def log_err_if (COND : Bool) (errno : Int) (strerror : Int → List Char) (M : List Char) : Exec :=
  _mc_log_if Severity.error COND (errnoFormat (_mc_clean_errno errno strerror) M)

def log_err (level : Nat) (errno : Int) (strerror : Int → List Char) (M : List Char) : Exec :=
  log_err_if (decide (level ≥ MC_LOG_LEVEL_ERROR)) errno strerror M

/-- The expansion of the format `"failed assertion %s"` (the argument stands
between a backquote and a quote) with the stringified condition `cond`. -/
def assertionFormat (cond : List Char) : List Char :=
  "failed assertion ".toList ++ [Char.ofNat 96] ++ cond ++ [Char.ofNat 39]

/-- The two definitions of `_ASSERTION_FAILED(cond)`: both log at `plog::fatal`
and call `printBacktrace()`; only the one without `NDEBUG` calls `abort()`.
`printBacktrace` is defined outside the header and is taken to return. -/
def _ASSERTION_FAILED (NDEBUG : Bool) (cond : List Char) : Exec :=
  let report := (_mc_log Severity.fatal (assertionFormat cond)).andThen ⟨[Effect.printBacktrace], false⟩
  if NDEBUG then report else report.andThen ⟨[Effect.abort], true⟩

/-- `#define ASSERT(cond) if (!(cond)) _ASSERTION_FAILED(cond)`; `cond` is the
value of the condition and `text` its stringification `#cond`. -/
def ASSERT (NDEBUG : Bool) (cond : Bool) (text : List Char) : Exec :=
  if !cond then _ASSERTION_FAILED NDEBUG text else Exec.skip

/-- Conversion of a C integer to `bool`. -/
def cTruth (v : Int) : Bool := v != 0

/-- `#define NOT_REACHED() ASSERT(0)`. -/
def NOT_REACHED (NDEBUG : Bool) : Exec :=
  ASSERT NDEBUG (cTruth 0) "0".toList

/-! ## The parser driver -/

/-- Modelled from the spec: the response parser's transition code is not part
of `Common.h`, which only declares `parser_state_t` and `IS_END_STATE`. Spec
section 3 says that a state reached as End or Error is terminal and that no
further transition occurs until the parser is reset; the transitions out of the
other states are the parameter `delta`. -/
def feed {ι : Type} (delta : parser_state_t → ι → parser_state_t)
    (st : parser_state_t) (input : ι) : parser_state_t :=
  if IS_END_STATE st then st else delta st input

/-- Modelled from the spec: feeding a sequence of inputs within one response
cycle (the parser code itself is not part of `Common.h`). -/
def feedAll {ι : Type} (delta : parser_state_t → ι → parser_state_t)
    (st : parser_state_t) (inputs : List ι) : parser_state_t :=
  inputs.foldl (feed delta) st

/-- Modelled from the spec: the explicit reset to Start at the beginning of the
next response cycle (spec section 3, Lifecycle); the parser code itself is not
part of `Common.h`. -/
def reset (_ : parser_state_t) : parser_state_t := FSM_START

/-! ## Theorems -/

/-- C1: `IS_END_STATE(st)` holds exactly for `FSM_END` and `FSM_ERROR`; it is
false for `FSM_START` and for each of the ten other non-terminal states. -/
theorem C1_is_end_state_iff :
    (∀ st : parser_state_t, IS_END_STATE st = true ↔ (st = FSM_END ∨ st = FSM_ERROR)) ∧
    IS_END_STATE FSM_START = false ∧
    IS_END_STATE FSM_GET_START = false ∧
    IS_END_STATE FSM_GET_KEY = false ∧
    IS_END_STATE FSM_GET_FLAGS = false ∧
    IS_END_STATE FSM_GET_BYTES = false ∧
    IS_END_STATE FSM_GET_CAS = false ∧
    IS_END_STATE FSM_GET_VALUE_REMAINING = false ∧
    IS_END_STATE FSM_VER_START = false ∧
    IS_END_STATE FSM_STAT_START = false ∧
    IS_END_STATE FSM_INCR_DECR_START = false ∧
    IS_END_STATE FSM_INCR_DECR_REMAINING = false := by
  refine ⟨?_, rfl, rfl, rfl, rfl, rfl, rfl, rfl, rfl, rfl, rfl, rfl⟩
  intro st
  cases st <;> decide

/-- C4: the default port is 11211, the poll-wait timeout 300 (ms), the connect
timeout 10 (s) and the retry timeout 5 (s); in milliseconds the poll-wait
interval is strictly shorter than the retry timeout, which is strictly shorter
than the connect timeout. -/
theorem C4_default_constants :
    MC_DEFAULT_PORT = 11211 ∧
    MC_DEFAULT_POLL_TIMEOUT = 300 ∧
    MC_DEFAULT_CONNECT_TIMEOUT = 10 ∧
    MC_DEFAULT_RETRY_TIMEOUT = 5 ∧
    secondsToMs MC_DEFAULT_RETRY_TIMEOUT = 5000 ∧
    secondsToMs MC_DEFAULT_CONNECT_TIMEOUT = 10000 ∧
    MC_DEFAULT_POLL_TIMEOUT < secondsToMs MC_DEFAULT_RETRY_TIMEOUT ∧
    secondsToMs MC_DEFAULT_RETRY_TIMEOUT < secondsToMs MC_DEFAULT_CONNECT_TIMEOUT := by
  decide

/-- C6: `MIN_DATABLOCK_CAPACITY` is 8192, and for every requested size `n` the
clamped capacity `MAX(n, MIN_DATABLOCK_CAPACITY)` is at least 8192 and at least
`n`, equals `n` when `n >= 8192` and equals 8192 otherwise. -/
theorem C6_clamped_capacity (n : Int) :
    MIN_DATABLOCK_CAPACITY = 8192 ∧
    8192 ≤ MAX n MIN_DATABLOCK_CAPACITY ∧
    n ≤ MAX n MIN_DATABLOCK_CAPACITY ∧
    (8192 ≤ n → MAX n MIN_DATABLOCK_CAPACITY = n) ∧
    (n < 8192 → MAX n MIN_DATABLOCK_CAPACITY = 8192) := by
  unfold MAX MIN_DATABLOCK_CAPACITY
  refine ⟨rfl, ?_, ?_, ?_, ?_⟩
  · split <;> omega
  · split <;> omega
  · intro h; split <;> omega
  · intro h; split <;> omega

/-- C6 at the concrete sizes 100 and 20000. -/
theorem C6_clamped_capacity_witness :
    MAX 20000 MIN_DATABLOCK_CAPACITY = 20000 ∧ MAX 100 MIN_DATABLOCK_CAPACITY = 8192 :=
  ⟨(C6_clamped_capacity 20000).2.2.2.1 (by decide),
   (C6_clamped_capacity 100).2.2.2.2 (by decide)⟩

/-- C8: `parser_state_t` has exactly thirteen enumerators, in one-to-one
correspondence with the thirteen states the specification lists; their numeric
values are pairwise distinct, lie in 0..12, and `FSM_START` is zero. -/
theorem C8_parser_states_exhaustive :
    Fintype.card parser_state_t = 13 ∧
    Fintype.card SpecParserState = 13 ∧
    (∀ st : parser_state_t, ofSpecState (toSpecState st) = st) ∧
    (∀ s : SpecParserState, toSpecState (ofSpecState s) = s) ∧
    Function.Bijective toSpecState ∧
    toSpecState FSM_START = SpecParserState.Start ∧
    toSpecState FSM_END = SpecParserState.End ∧
    toSpecState FSM_ERROR = SpecParserState.Error ∧
    toSpecState FSM_GET_START = SpecParserState.GetStart ∧
    toSpecState FSM_GET_KEY = SpecParserState.GetKey ∧
    toSpecState FSM_GET_FLAGS = SpecParserState.GetFlags ∧
    toSpecState FSM_GET_BYTES = SpecParserState.GetBytes ∧
    toSpecState FSM_GET_CAS = SpecParserState.GetCas ∧
    toSpecState FSM_GET_VALUE_REMAINING = SpecParserState.GetValueRemaining ∧
    toSpecState FSM_VER_START = SpecParserState.VersionStart ∧
    toSpecState FSM_STAT_START = SpecParserState.StatStart ∧
    toSpecState FSM_INCR_DECR_START = SpecParserState.IncrDecrStart ∧
    toSpecState FSM_INCR_DECR_REMAINING = SpecParserState.IncrDecrRemaining ∧
    Function.Injective parser_state_t.toNat ∧
    (∀ st : parser_state_t, st.toNat < 13) ∧
    (∀ n : Nat, n < 13 → ∃ st : parser_state_t, st.toNat = n) ∧
    FSM_START.toNat = 0 ∧
    (∀ st : parser_state_t, st.toNat = 0 → st = FSM_START) := by
  have hl : ∀ st : parser_state_t, ofSpecState (toSpecState st) = st := by
    intro st; cases st <;> rfl
  have hr : ∀ s : SpecParserState, toSpecState (ofSpecState s) = s := by
    intro s; cases s <;> rfl
  refine ⟨rfl, rfl, hl, hr, ?_, rfl, rfl, rfl, rfl, rfl, rfl, rfl, rfl, rfl, rfl, rfl, rfl, rfl,
    ?_, ?_, ?_, rfl, ?_⟩
  · exact ⟨Function.LeftInverse.injective hl, Function.RightInverse.surjective hr⟩
  · intro a b h
    cases a <;> cases b <;> first | rfl | (exact absurd h (by decide))
  · intro st; cases st <;> decide
  · intro n hn
    interval_cases n
    · exact ⟨FSM_START, rfl⟩
    · exact ⟨FSM_END, rfl⟩
    · exact ⟨FSM_ERROR, rfl⟩
    · exact ⟨FSM_GET_START, rfl⟩
    · exact ⟨FSM_GET_KEY, rfl⟩
    · exact ⟨FSM_GET_FLAGS, rfl⟩
    · exact ⟨FSM_GET_BYTES, rfl⟩
    · exact ⟨FSM_GET_CAS, rfl⟩
    · exact ⟨FSM_GET_VALUE_REMAINING, rfl⟩
    · exact ⟨FSM_VER_START, rfl⟩
    · exact ⟨FSM_STAT_START, rfl⟩
    · exact ⟨FSM_INCR_DECR_START, rfl⟩
    · exact ⟨FSM_INCR_DECR_REMAINING, rfl⟩
  · intro st h
    cases st <;> first | rfl | (exact absurd h (by decide))

/-- C10: `MIN(a, b)` and `MAX(a, b)` are the mathematical minimum and maximum:
each is one of its arguments, `MIN <= MAX`, `MIN + MAX = a + b`, and both are
commutative. -/
theorem C10_min_max (a b : Int) :
    MIN a b = min a b ∧
    MAX a b = max a b ∧
    (MIN a b = a ∨ MIN a b = b) ∧
    (MAX a b = a ∨ MAX a b = b) ∧
    MIN a b ≤ MAX a b ∧
    MIN a b + MAX a b = a + b ∧
    MIN a b = MIN b a ∧
    MAX a b = MAX b a := by
  unfold MIN MAX
  refine ⟨?_, ?_, ?_, ?_, ?_, ?_, ?_, ?_⟩
  · split <;> omega
  · split <;> omega
  · split <;> simp
  · split <;> simp
  · split <;> split <;> omega
  · split <;> split <;> omega
  · split <;> split <;> omega
  · split <;> split <;> omega

/-! ### Helper lemmas on the logging helpers -/

theorem cstr_length_le (buf : List Char) : (cstr buf).length ≤ buf.length := by
  unfold cstr
  induction buf with
  | nil => simp
  | cons c cs ih =>
    by_cases h : (c != Char.ofNat 0) = true
    · simp only [List.takeWhile_cons, h, if_true, List.length_cons]
      omega
    · simp only [List.takeWhile_cons, h, List.length_cons]
      simp

theorem cstr_eq_self (buf : List Char) (h : ∀ c ∈ buf, c ≠ Char.ofNat 0) : cstr buf = buf := by
  unfold cstr
  rw [List.takeWhile_eq_self_iff]
  intro c hc
  simpa using h c hc

theorem mc_log_eq (LEVEL : Severity) (m : List Char) :
    _mc_log LEVEL m =
      ⟨[Effect.LOG LEVEL ((m ++ ['\n']).take (MAX_LOG_LENGTH - 1))], false⟩ := by
  unfold _mc_log snprintf
  have h : ((m ++ ['\n']).length : Int) > 0 := by
    simp only [List.length_append, List.length_singleton]
    omega
  simp only [h, if_true]

theorem mc_log_logged (LEVEL : Severity) (m : List Char) :
    (_mc_log LEVEL m).logged = [(m ++ ['\n']).take (MAX_LOG_LENGTH - 1)] := by
  rw [mc_log_eq]
  rfl

theorem mc_log_if_logged_length (LEVEL : Severity) (COND : Bool) (m : List Char) :
    ∀ t ∈ (_mc_log_if LEVEL COND m).logged, t.length ≤ 299 := by
  intro t ht
  unfold _mc_log_if at ht
  cases COND with
  | false => simp [Exec.skip, Exec.logged] at ht
  | true =>
    simp only [if_true, mc_log_logged, List.mem_singleton] at ht
    subst ht
    simp [MAX_LOG_LENGTH]

theorem mc_log_emits (LEVEL : Severity) (m : List Char) : (_mc_log LEVEL m).emits = true := by
  rw [mc_log_eq]
  rfl

theorem mc_log_if_emits (LEVEL : Severity) (COND : Bool) (m : List Char) :
    (_mc_log_if LEVEL COND m).emits = COND := by
  unfold _mc_log_if
  cases COND with
  | false => rfl
  | true => simpa using mc_log_emits LEVEL m

/-! ### Claims on the logging helpers -/

/-- C5: the text `_mc_log` hands to the sink is the first
`MAX_LOG_LENGTH - 1 = 299` characters of the message followed by a newline: the
whole message and the newline when these are at most 299 characters, and the
first 299 characters of the message otherwise; it is never longer than 299
characters, also as the sink reads it (as a C string). The bound covers the
`[E: <errno text>] ` text that `log_debug`, `log_warn` and `log_err` put in
front of the message. -/
theorem C5_log_text_bounded (LEVEL : Severity) (m : List Char) (NDEBUG : Bool) (level : Nat)
    (errno : Int) (strerror : Int → List Char) :
    _mc_log LEVEL m = ⟨[Effect.LOG LEVEL ((m ++ ['\n']).take (MAX_LOG_LENGTH - 1))], false⟩ ∧
    MAX_LOG_LENGTH - 1 = 299 ∧
    (∀ t ∈ (_mc_log LEVEL m).logged, t.length ≤ 299 ∧ (cstr t).length ≤ 299) ∧
    (m.length + 1 ≤ 299 → (_mc_log LEVEL m).logged = [m ++ ['\n']]) ∧
    (299 ≤ m.length → (_mc_log LEVEL m).logged = [m.take 299]) ∧
    ((∀ c ∈ m, c ≠ Char.ofNat 0) → ∀ t ∈ (_mc_log LEVEL m).logged, cstr t = t) ∧
    log_err_if true errno strerror m =
      _mc_log Severity.error ("[E: ".toList ++ _mc_clean_errno errno strerror ++ "] ".toList ++ m) ∧
    log_warn_if true errno strerror m =
      _mc_log Severity.warning ("[E: ".toList ++ _mc_clean_errno errno strerror ++ "] ".toList ++ m) ∧
    log_debug_if false true errno strerror m =
      _mc_log Severity.debug ("[E: ".toList ++ _mc_clean_errno errno strerror ++ "] ".toList ++ m) ∧
    (∀ t ∈ (log_err level errno strerror m).logged, t.length ≤ 299) ∧
    (∀ t ∈ (log_warn level errno strerror m).logged, t.length ≤ 299) ∧
    (∀ t ∈ (log_info level m).logged, t.length ≤ 299) ∧
    (∀ t ∈ (log_debug NDEBUG level errno strerror m).logged, t.length ≤ 299) := by
  refine ⟨mc_log_eq LEVEL m, rfl, ?_, ?_, ?_, ?_, rfl, rfl, rfl, ?_, ?_, ?_, ?_⟩
  · intro t ht
    have hb : t.length ≤ 299 := by
      simpa [_mc_log_if] using mc_log_if_logged_length LEVEL true m t (by simpa [_mc_log_if] using ht)
    exact ⟨hb, le_trans (cstr_length_le t) hb⟩
  · intro hlen
    rw [mc_log_logged]
    have ht : (m ++ ['\n']).take (MAX_LOG_LENGTH - 1) = m ++ ['\n'] :=
      List.take_of_length_le (by simp [MAX_LOG_LENGTH]; omega)
    rw [ht]
  · intro hlen
    rw [mc_log_logged]
    have ht : (m ++ ['\n']).take (MAX_LOG_LENGTH - 1) = m.take 299 :=
      List.take_append_of_le_length (by simp [MAX_LOG_LENGTH]; omega)
    rw [ht]
  · intro hfree t ht
    rw [mc_log_logged, List.mem_singleton] at ht
    subst ht
    apply cstr_eq_self
    intro c hc
    rcases List.mem_append.mp (List.mem_of_mem_take hc) with h | h
    · exact hfree c h
    · rw [List.mem_singleton.mp h]; decide
  · exact mc_log_if_logged_length _ _ _
  · exact mc_log_if_logged_length _ _ _
  · exact mc_log_if_logged_length _ _ _
  · unfold log_debug log_debug_if
    cases NDEBUG with
    | true => intro t ht; simp [Exec.skip, Exec.logged] at ht
    | false => exact mc_log_if_logged_length _ _ _

/-- C5 at the messages `ok` (short) and 300 times `a` (long). -/
theorem C5_log_text_bounded_witness :
    (_mc_log Severity.info "ok".toList).logged = ["ok\n".toList] ∧
    (_mc_log Severity.info (List.replicate 300 'a')).logged = [(List.replicate 300 'a').take 299] :=
  ⟨(C5_log_text_bounded Severity.info "ok".toList false 4 0 (fun _ => [])).2.2.2.1 (by decide),
   (C5_log_text_bounded Severity.info (List.replicate 300 'a') false 4 0 (fun _ => [])).2.2.2.2.1
      (by rw [List.length_replicate]; decide)⟩

/-- C9, as stated, fails: with `NDEBUG` defined and `MC_LOG_LEVEL` set to
`MC_LOG_LEVEL_DEBUG`, the configured level reaches the level of `log_debug`,
yet `log_debug` emits nothing. -/
theorem C9_ndebug_debug_silent :
    ¬ ((log_debug true MC_LOG_LEVEL_DEBUG 0 (fun _ => []) "x".toList).emits = true ↔
        MC_LOG_LEVEL_DEBUG ≥ MC_LOG_LEVEL_DEBUG) := by
  decide

/-- C9, amended: `log_err`, `log_warn` and `log_info` emit exactly when the
configured level is at least 2, 3 and 4, in either build mode; `log_debug`
emits exactly when `NDEBUG` is not defined and the configured level is at least
5; raising the level never suppresses a message; at the default level
`MC_LOG_LEVEL_INFO` the first three emit and `log_debug` emits nothing, with
and without `NDEBUG`. -/
theorem C9_level_filter (NDEBUG : Bool) (level level2 : Nat) (errno : Int)
    (strerror : Int → List Char) (M : List Char) :
    MC_LOG_LEVEL_ERROR = 2 ∧ MC_LOG_LEVEL_WARNING = 3 ∧
    MC_LOG_LEVEL_INFO = 4 ∧ MC_LOG_LEVEL_DEBUG = 5 ∧
    MC_LOG_LEVEL = MC_LOG_LEVEL_INFO ∧
    ((log_err level errno strerror M).emits = true ↔ level ≥ MC_LOG_LEVEL_ERROR) ∧
    ((log_warn level errno strerror M).emits = true ↔ level ≥ MC_LOG_LEVEL_WARNING) ∧
    ((log_info level M).emits = true ↔ level ≥ MC_LOG_LEVEL_INFO) ∧
    ((log_debug NDEBUG level errno strerror M).emits = true ↔
      (NDEBUG = false ∧ level ≥ MC_LOG_LEVEL_DEBUG)) ∧
    (level ≤ level2 →
      ((log_err level errno strerror M).emits = true →
        (log_err level2 errno strerror M).emits = true) ∧
      ((log_warn level errno strerror M).emits = true →
        (log_warn level2 errno strerror M).emits = true) ∧
      ((log_info level M).emits = true → (log_info level2 M).emits = true) ∧
      ((log_debug NDEBUG level errno strerror M).emits = true →
        (log_debug NDEBUG level2 errno strerror M).emits = true)) ∧
    (log_err MC_LOG_LEVEL errno strerror M).emits = true ∧
    (log_warn MC_LOG_LEVEL errno strerror M).emits = true ∧
    (log_info MC_LOG_LEVEL M).emits = true ∧
    (log_debug NDEBUG MC_LOG_LEVEL errno strerror M).emits = false ∧
    (log_debug NDEBUG MC_LOG_LEVEL errno strerror M).effects = [] := by
  have herr : ∀ l : Nat, (log_err l errno strerror M).emits = true ↔ l ≥ MC_LOG_LEVEL_ERROR := by
    intro l
    unfold log_err log_err_if
    rw [mc_log_if_emits]
    simp
  have hwarn : ∀ l : Nat,
      (log_warn l errno strerror M).emits = true ↔ l ≥ MC_LOG_LEVEL_WARNING := by
    intro l
    unfold log_warn log_warn_if
    rw [mc_log_if_emits]
    simp
  have hinfo : ∀ l : Nat, (log_info l M).emits = true ↔ l ≥ MC_LOG_LEVEL_INFO := by
    intro l
    unfold log_info log_info_if
    rw [mc_log_if_emits]
    simp
  have hdebug : ∀ l : Nat, (log_debug NDEBUG l errno strerror M).emits = true ↔
      (NDEBUG = false ∧ l ≥ MC_LOG_LEVEL_DEBUG) := by
    intro l
    unfold log_debug log_debug_if
    cases NDEBUG with
    | true => simp [Exec.skip, Exec.emits]
    | false =>
      simp only [Bool.false_eq_true, if_false, mc_log_if_emits]
      simp
  have hdef : (log_debug NDEBUG MC_LOG_LEVEL errno strerror M).effects = [] := by
    unfold log_debug log_debug_if
    cases NDEBUG with
    | true => rfl
    | false => rfl
  refine ⟨rfl, rfl, rfl, rfl, rfl, herr level, hwarn level, hinfo level, hdebug level,
    ?_, ?_, ?_, ?_, ?_, hdef⟩
  · intro hle
    refine ⟨?_, ?_, ?_, ?_⟩
    · intro h
      exact (herr level2).mpr (le_trans ((herr level).mp h) hle)
    · intro h
      exact (hwarn level2).mpr (le_trans ((hwarn level).mp h) hle)
    · intro h
      exact (hinfo level2).mpr (le_trans ((hinfo level).mp h) hle)
    · intro h
      have h1 := (hdebug level).mp h
      exact (hdebug level2).mpr ⟨h1.1, le_trans h1.2 hle⟩
  · exact (herr MC_LOG_LEVEL).mpr (by decide)
  · exact (hwarn MC_LOG_LEVEL).mpr (by decide)
  · exact (hinfo MC_LOG_LEVEL).mpr (by decide)
  · unfold Exec.emits
    rw [hdef]
    rfl

/-- C9, amended, at the levels 3 and 5 without `NDEBUG`: `log_warn` emits at 3
and still emits at 5. -/
theorem C9_level_filter_witness :
    (3 : Nat) ≤ 5 ∧
    ((log_warn 3 0 (fun _ => []) "x".toList).emits = true →
      (log_warn 5 0 (fun _ => []) "x".toList).emits = true) ∧
    (log_warn 3 0 (fun _ => []) "x".toList).emits = true :=
  ⟨by decide,
   ((C9_level_filter false 3 5 0 (fun _ => []) "x".toList).2.2.2.2.2.2.2.2.2.1 (by decide)).2.1,
   by decide⟩

/-! ### Claims on the assertion helpers -/

/-- C2, as stated, fails: with `NDEBUG` defined a failed `ASSERT` and
`NOT_REACHED()` log and print the backtrace but do not abort, and execution
continues. -/
theorem C2_ndebug_continues :
    (ASSERT true false "n > 0".toList).terminated = false ∧
    Effect.abort ∉ (ASSERT true false "n > 0".toList).effects ∧
    (NOT_REACHED true).terminated = false ∧
    Effect.abort ∉ (NOT_REACHED true).effects := by
  decide

/-- C2, amended: a failed `ASSERT(cond)` (and so `NOT_REACHED()`) first hands
the sink one `plog::fatal` record, the text `failed assertion` followed by the
quoted condition and a newline, cut to 299 characters, then calls
`printBacktrace()`; without
`NDEBUG` it then calls `abort()` and the process terminates; with `NDEBUG` it
does not abort and execution continues. -/
theorem C2_failed_assert (text : List Char) :
    ASSERT false false text =
      ⟨[Effect.LOG Severity.fatal
          ((assertionFormat text ++ ['\n']).take (MAX_LOG_LENGTH - 1)),
        Effect.printBacktrace, Effect.abort], true⟩ ∧
    ASSERT true false text =
      ⟨[Effect.LOG Severity.fatal
          ((assertionFormat text ++ ['\n']).take (MAX_LOG_LENGTH - 1)),
        Effect.printBacktrace], false⟩ ∧
    assertionFormat text = "failed assertion ".toList ++ [Char.ofNat 96] ++ text ++ [Char.ofNat 39] ∧
    (text.length ≤ 279 → ∀ NDEBUG : Bool, (ASSERT NDEBUG false text).logged = [assertionFormat text ++ ['\n']]) ∧
    NOT_REACHED false =
      ⟨[Effect.LOG Severity.fatal (assertionFormat "0".toList ++ ['\n']),
        Effect.printBacktrace, Effect.abort], true⟩ ∧
    NOT_REACHED true =
      ⟨[Effect.LOG Severity.fatal (assertionFormat "0".toList ++ ['\n']),
        Effect.printBacktrace], false⟩ := by
  have h1 : ASSERT false false text =
      ⟨[Effect.LOG Severity.fatal
          ((assertionFormat text ++ ['\n']).take (MAX_LOG_LENGTH - 1)),
        Effect.printBacktrace, Effect.abort], true⟩ := by
    simp [ASSERT, _ASSERTION_FAILED, mc_log_eq, Exec.andThen]
  have h2 : ASSERT true false text =
      ⟨[Effect.LOG Severity.fatal
          ((assertionFormat text ++ ['\n']).take (MAX_LOG_LENGTH - 1)),
        Effect.printBacktrace], false⟩ := by
    simp [ASSERT, _ASSERTION_FAILED, mc_log_eq, Exec.andThen]
  refine ⟨h1, h2, rfl, ?_, by decide, by decide⟩
  intro hlen NDEBUG
  have ht : (assertionFormat text ++ ['\n']).take (MAX_LOG_LENGTH - 1) =
      assertionFormat text ++ ['\n'] :=
    List.take_of_length_le (by simp [MAX_LOG_LENGTH, assertionFormat]; omega)
  cases NDEBUG with
  | true => rw [h2, ht]; rfl
  | false => rw [h1, ht]; rfl

/-- C2, amended, at the condition text `n > 0`. -/
theorem C2_failed_assert_witness :
    ∀ NDEBUG : Bool, (ASSERT NDEBUG false "n > 0".toList).logged =
      [assertionFormat "n > 0".toList ++ ['\n']] :=
  (C2_failed_assert "n > 0".toList).2.2.2.1 (by decide)

/-- C3: an `ASSERT` whose condition is true has no effect at all (no record,
no backtrace, no abort) and execution continues; `abort()` is reached only when
the condition is false; `NOT_REACHED()` is `ASSERT(0)` and runs
`_ASSERTION_FAILED` in either build mode. -/
theorem C3_assert_only_on_violation (NDEBUG : Bool) (cond : Bool) (text : List Char) :
    ASSERT NDEBUG true text = Exec.skip ∧
    (ASSERT NDEBUG true text).effects = [] ∧
    (ASSERT NDEBUG true text).terminated = false ∧
    (ASSERT NDEBUG true text).emits = false ∧
    ((ASSERT NDEBUG cond text).effects ≠ [] → cond = false) ∧
    ((ASSERT NDEBUG cond text).terminated = true → cond = false) ∧
    cTruth 0 = false ∧
    NOT_REACHED NDEBUG = ASSERT NDEBUG (cTruth 0) "0".toList ∧
    NOT_REACHED NDEBUG = _ASSERTION_FAILED NDEBUG "0".toList ∧
    (NOT_REACHED NDEBUG).effects.take 2 =
      [Effect.LOG Severity.fatal (assertionFormat "0".toList ++ ['\n']), Effect.printBacktrace] := by
  refine ⟨rfl, rfl, rfl, rfl, ?_, ?_, rfl, rfl, rfl, ?_⟩
  · intro h
    cases cond with
    | false => rfl
    | true => exact absurd rfl h
  · intro h
    cases cond with
    | false => rfl
    | true => exact absurd h (by simp [ASSERT, Exec.skip])
  · cases NDEBUG <;> decide

/-- C3 at a failed `ASSERT(n > 0)` without `NDEBUG`: it terminates, and its
condition is false. -/
theorem C3_assert_only_on_violation_witness :
    (ASSERT false false "n > 0".toList).terminated = true ∧ false = false :=
  ⟨by decide,
   (C3_assert_only_on_violation false false "n > 0".toList).2.2.2.2.2.1 (by decide)⟩

/-! ### The parser driver -/

/-- C7: once the state satisfies `IS_END_STATE`, feeding any input, or any
sequence of inputs, leaves it unchanged, whatever the transitions out of the
other states are; only the reset to `FSM_START` makes transitions possible
again. -/
theorem C7_terminal_idempotence {ι : Type} (delta : parser_state_t → ι → parser_state_t)
    (st : parser_state_t) (inputs : List ι) (h : IS_END_STATE st = true) :
    (∀ i : ι, feed delta st i = st) ∧
    feedAll delta st inputs = st ∧
    IS_END_STATE (feedAll delta st inputs) = true ∧
    reset st = FSM_START ∧
    IS_END_STATE (reset st) = false ∧
    (∀ i : ι, feed delta (reset st) i = delta FSM_START i) := by
  have hstep : ∀ i : ι, feed delta st i = st := by
    intro i
    simp [feed, h]
  have hall : feedAll delta st inputs = st := by
    unfold feedAll
    induction inputs with
    | nil => rfl
    | cons i is ih => rw [List.foldl_cons, hstep i]; exact ih
  refine ⟨hstep, hall, ?_, rfl, rfl, ?_⟩
  · rw [hall]; exact h
  · intro i
    rfl

/-- C7 at the state `FSM_END`, with a transition function that would move
every state to `FSM_GET_START`, and three inputs. -/
theorem C7_terminal_idempotence_witness :
    IS_END_STATE FSM_END = true ∧
    feedAll (fun (_ : parser_state_t) (_ : Nat) => FSM_GET_START) FSM_END [1, 2, 3] = FSM_END ∧
    feedAll (fun (_ : parser_state_t) (_ : Nat) => FSM_GET_START) FSM_START [1, 2, 3] =
      FSM_GET_START :=
  ⟨by decide,
   (C7_terminal_idempotence (fun (_ : parser_state_t) (_ : Nat) => FSM_GET_START)
      FSM_END [1, 2, 3] (by decide)).2.1,
   by decide⟩

end Libmc
